import Mathlib

/-!
Verification of the StandupBot backend standup service.

The definitions below are a shallow embedding of the C# backend:
  - `Data/Entities/Standup.cs`, `Data/Entities/User.cs`, `Data/Enums/BlockerStatus.cs`
  - `Services/StandupService.cs` (the only component with logic)
  - `Controllers/StandupsController.cs` (exception-to-status-code mapping)
  - `DTOs/StandupDtos.cs` (request records and their data-annotation
    validation ranges, enforced by the framework's model validation)

The database is modelled as lists of rows; EF Core's change tracking is
modelled by pure functions from a `Db` to a new `Db`.  `DateTime.UtcNow`
and `DateOnly.FromDateTime(DateTime.UtcNow)` are passed explicitly as
`now` and `today` parameters (both as natural numbers).  C# exceptions
(`InvalidOperationException` for the duplicate-submission conflict,
`ArgumentException` for blocker validation) become an `Except` error type.
-/

namespace StandupBot

/-- `Data/Enums/BlockerStatus.cs`: New | Critical | Resolved. -/
inductive BlockerState where
  | New
  | Critical
  | Resolved
deriving DecidableEq, Repr

/-- `Data/Enums/UserRole.cs`: Member | Lead. -/
inductive UserRole where
  | Member
  | Lead
deriving DecidableEq, Repr

/-- `Data/Entities/User.cs` (fields relevant to the service). -/
structure User where
  id : Nat
  name : String
  email : String
  role : UserRole
  teamId : Nat
deriving DecidableEq, Repr

/-- `Data/Entities/Standup.cs`: one standup row of the `standups` table. -/
structure Standup where
  id : Nat
  userId : Nat
  date : Nat
  jiraId : String
  taskDescription : String
  percentageComplete : Int
  hasBlocker : Bool
  blockerDescription : Option String
  blockerStatus : Option BlockerState
  nextTask : String
  createdAt : Nat
  updatedAt : Option Nat
deriving DecidableEq, Repr

/-- The relational store: `users` and `standups` tables plus the
identity-column counter EF uses to assign `Standup.Id` on insert. -/
structure Db where
  users : List User
  standups : List Standup
  nextStandupId : Nat
deriving DecidableEq, Repr

/-- `DTOs/StandupDtos.cs` `CreateStandupRequest`. -/
structure CreateStandupRequest where
  jiraId : String
  taskDescription : String
  percentageComplete : Int
  hasBlocker : Bool
  blockerDescription : Option String
  nextTask : String
deriving DecidableEq, Repr

/-- `DTOs/StandupDtos.cs` `UpdateStandupRequest`: all fields optional. -/
structure UpdateStandupRequest where
  jiraId : Option String
  taskDescription : Option String
  percentageComplete : Option Int
  hasBlocker : Option Bool
  blockerDescription : Option String
  nextTask : Option String
deriving DecidableEq, Repr

/-- `DTOs/StandupDtos.cs` `StandupDto`. -/
structure StandupDto where
  id : Nat
  userId : Nat
  userName : String
  date : Nat
  jiraId : String
  taskDescription : String
  percentageComplete : Int
  hasBlocker : Bool
  blockerDescription : Option String
  blockerStatus : Option BlockerState
  nextTask : String
  createdAt : Nat
  updatedAt : Option Nat
deriving DecidableEq, Repr

/-- `DTOs/StandupDtos.cs` `StandupSummaryDto`. -/
structure StandupSummaryDto where
  id : Nat
  userId : Nat
  userName : String
  date : Nat
  jiraId : String
  percentageComplete : Int
  hasBlocker : Bool
  blockerStatus : Option BlockerState
  createdAt : Nat
deriving DecidableEq, Repr

/-- `Services/IStandupService.cs` `UserSummaryDto`. -/
structure UserSummaryDto where
  id : Nat
  name : String
  role : UserRole
deriving DecidableEq, Repr

/-- `Services/IStandupService.cs` `TeamSubmissionStatusDto`. -/
structure TeamSubmissionStatusDto where
  totalMembers : Nat
  submittedCount : Nat
  submitted : List UserSummaryDto
  pending : List UserSummaryDto
deriving DecidableEq, Repr

/-- The two exception kinds the service throws:
`InvalidOperationException` (conflict) and `ArgumentException`
(validation), as caught by `StandupsController`. -/
inductive ServiceError where
  | conflict (msg : String)
  | validation (msg : String)
deriving DecidableEq, Repr

/-- C# `string.IsNullOrWhiteSpace` on a nullable string: true for null,
empty, or a string consisting only of white-space characters. -/
def isNullOrWhiteSpace : Option String → Bool
  | none => true
  | some s => s.data.all (fun c => c.isWhitespace)

/-- `standup.User?.Name ?? "Unknown"`: the `Include(s => s.User)`
navigation load followed by the name read in `MapToDto`. -/
def lookupUserName (db : Db) (uid : Nat) : String :=
  match db.users.find? (fun u => u.id == uid) with
  | some u => u.name
  | none => "Unknown"

/-- `StandupService.MapToDto`. -/
def mapToDto (db : Db) (s : Standup) : StandupDto :=
  { id := s.id
    userId := s.userId
    userName := lookupUserName db s.userId
    date := s.date
    jiraId := s.jiraId
    taskDescription := s.taskDescription
    percentageComplete := s.percentageComplete
    hasBlocker := s.hasBlocker
    blockerDescription := s.blockerDescription
    blockerStatus := s.blockerStatus
    nextTask := s.nextTask
    createdAt := s.createdAt
    updatedAt := s.updatedAt }

/-- `StandupService.MapToSummaryDto`. -/
def mapToSummaryDto (db : Db) (s : Standup) : StandupSummaryDto :=
  { id := s.id
    userId := s.userId
    userName := lookupUserName db s.userId
    date := s.date
    jiraId := s.jiraId
    percentageComplete := s.percentageComplete
    hasBlocker := s.hasBlocker
    blockerStatus := s.blockerStatus
    createdAt := s.createdAt }

/-- Replace the first row satisfying `p` by `x` (EF mutates the tracked
entity found by `FirstOrDefaultAsync` in place; `SaveChangesAsync`
persists exactly that row). -/
def setFirst (p : Standup → Bool) (x : Standup) : List Standup → List Standup
  | [] => []
  | s :: rest => if p s then x :: rest else s :: setFirst p x rest

/-- `StandupService.GetTodayStandupAsync`. -/
def getTodayStandupAsync (db : Db) (today uid : Nat) : Option StandupDto :=
  (db.standups.find? (fun s => s.userId == uid && s.date == today)).map (mapToDto db)

/-- Descending-date ordering used to model LINQ
`OrderByDescending(s => s.Date)` (a stable sort). -/
def dateDesc (a b : Standup) : Prop := b.date ≤ a.date

instance : DecidableRel dateDesc := fun a b => Nat.decLe b.date a.date

/-- `StandupService.GetUserHistoryAsync`: the user's rows, sorted by date
descending, truncated to `count`, in summary shape. -/
def getUserHistoryAsync (db : Db) (uid count : Nat) : List StandupSummaryDto :=
  ((((db.standups.filter (fun s => s.userId == uid)).insertionSort dateDesc).take count).map
    (mapToSummaryDto db))

/-- `StandupService.CreateAsync`. -/
def createAsync (db : Db) (today now uid : Nat) (req : CreateStandupRequest) :
    Except ServiceError (StandupDto × Db) :=
  match db.standups.find? (fun s => s.userId == uid && s.date == today) with
  | some _ =>
    .error (.conflict "Standup already submitted for today. Use update instead.")
  | none =>
    if req.hasBlocker && isNullOrWhiteSpace req.blockerDescription then
      .error (.validation "Blocker description is required when Has Blocker is checked.")
    else
      let standup : Standup :=
        { id := db.nextStandupId
          userId := uid
          date := today
          jiraId := req.jiraId
          taskDescription := req.taskDescription
          percentageComplete := req.percentageComplete
          hasBlocker := req.hasBlocker
          blockerDescription := if req.hasBlocker then req.blockerDescription else none
          blockerStatus := if req.hasBlocker then some .New else none
          nextTask := req.nextTask
          createdAt := now
          updatedAt := none }
      let db' : Db :=
        { db with standups := db.standups ++ [standup], nextStandupId := db.nextStandupId + 1 }
      .ok (mapToDto db' standup, db')

/-- The field-patching block of `StandupService.UpdateAsync`
(lines "Apply updates (only non-null values)"), applied in source order. -/
def applyPatch (req : UpdateStandupRequest) (s : Standup) : Standup :=
  let s1 := match req.jiraId with
    | some j => { s with jiraId := j }
    | none => s
  let s2 := match req.taskDescription with
    | some t => { s1 with taskDescription := t }
    | none => s1
  let s3 := match req.percentageComplete with
    | some p => { s2 with percentageComplete := p }
    | none => s2
  let s4 := match req.hasBlocker with
    | some hb =>
      if hb then { s3 with hasBlocker := true }
      else { s3 with hasBlocker := false, blockerDescription := none, blockerStatus := none }
    | none => s3
  let s5 := match req.blockerDescription with
    | some bd => if s4.hasBlocker then { s4 with blockerDescription := some bd } else s4
    | none => s4
  match req.nextTask with
    | some n => { s5 with nextTask := n }
    | none => s5

/-- `StandupService.UpdateAsync`.  `(none, db)` models the `null` return
for "no row for (userId, today)"; the validation exception is thrown
before `SaveChangesAsync`, so the store is untouched on that path. -/
def updateAsync (db : Db) (today now uid : Nat) (req : UpdateStandupRequest) :
    Except ServiceError (Option StandupDto × Db) :=
  match db.standups.find? (fun s => s.userId == uid && s.date == today) with
  | none => .ok (none, db)
  | some s0 =>
    let patched := applyPatch req s0
    if patched.hasBlocker && isNullOrWhiteSpace patched.blockerDescription then
      .error (.validation "Blocker description is required when Has Blocker is checked.")
    else
      let final : Standup := { patched with updatedAt := some now }
      let db' : Db :=
        { db with standups :=
            setFirst (fun s => s.userId == uid && s.date == today) final db.standups }
      .ok (some (mapToDto db' final), db')

/-- `StandupService.UpdateBlockerStatusAsync`.  Returns `(none, db)` when
the row is missing or has no blocker. -/
def updateBlockerStatusAsync (db : Db) (now sid : Nat) (status : BlockerState) :
    Option StandupDto × Db :=
  match db.standups.find? (fun s => s.id == sid) with
  | none => (none, db)
  | some s0 =>
    if !s0.hasBlocker then (none, db)
    else
      let final : Standup := { s0 with blockerStatus := some status, updatedAt := some now }
      let db' : Db :=
        { db with standups := setFirst (fun s => s.id == sid) final db.standups }
      (some (mapToDto db' final), db')

/-- `StandupService.HasSubmittedTodayAsync`. -/
def hasSubmittedTodayAsync (db : Db) (today uid : Nat) : Bool :=
  db.standups.any (fun s => s.userId == uid && s.date == today)

/-- `s.User!.TeamId` for a standup row: the team of the user the row
references (navigation join through the `users` table). -/
def userTeamId (db : Db) (uid : Nat) : Option Nat :=
  (db.users.find? (fun u => u.id == uid)).map (fun u => u.teamId)

/-- Projection `new UserSummaryDto(u.Id, u.Name, u.Role)`. -/
def userSummary (u : User) : UserSummaryDto :=
  { id := u.id, name := u.name, role := u.role }

/-- `StandupService.GetTeamSubmissionStatusAsync`. -/
def getTeamSubmissionStatusAsync (db : Db) (today teamId : Nat) : TeamSubmissionStatusDto :=
  let teamMembers := db.users.filter (fun u => u.teamId == teamId)
  let submittedUserIds :=
    (db.standups.filter (fun s => userTeamId db s.userId == some teamId && s.date == today)).map
      (fun s => s.userId)
  let submitted :=
    (teamMembers.filter (fun u => submittedUserIds.contains u.id)).map userSummary
  let pending :=
    (teamMembers.filter (fun u => !submittedUserIds.contains u.id)).map userSummary
  { totalMembers := teamMembers.length
    submittedCount := submittedUserIds.length
    submitted := submitted
    pending := pending }

/-! ### HTTP layer

`StandupsController` with the `[ApiController]` attribute: framework model
validation of the data annotations on the request records runs before the
action and answers 400 on failure; the action then maps
`InvalidOperationException` to 409 (`Conflict`) and `ArgumentException` to
400 (`BadRequest`). -/

/-- An HTTP outcome: a success status with a body, or an error status. -/
inductive HttpResult (α : Type) where
  | success (status : Nat) (body : α)
  | failure (status : Nat)
deriving DecidableEq, Repr

/-- Data-annotation validation of `CreateStandupRequest`:
`[Required][StringLength(50)]` jiraId, `[Required][StringLength(500)]`
taskDescription, `[Range(0, 100)]` percentageComplete,
`[StringLength(1000)]` blockerDescription, `[Required][StringLength(500)]`
nextTask. -/
def validCreateRequest (req : CreateStandupRequest) : Bool :=
  decide (0 < req.jiraId.length) && decide (req.jiraId.length ≤ 50) &&
  decide (0 < req.taskDescription.length) && decide (req.taskDescription.length ≤ 500) &&
  decide (0 ≤ req.percentageComplete) && decide (req.percentageComplete ≤ 100) &&
  (match req.blockerDescription with
    | some b => decide (b.length ≤ 1000)
    | none => true) &&
  decide (0 < req.nextTask.length) && decide (req.nextTask.length ≤ 500)

/-- Data-annotation validation of `UpdateStandupRequest`: the same length
and range bounds, applied only to the fields that are present. -/
def validUpdateRequest (req : UpdateStandupRequest) : Bool :=
  (match req.jiraId with
    | some j => decide (j.length ≤ 50)
    | none => true) &&
  (match req.taskDescription with
    | some t => decide (t.length ≤ 500)
    | none => true) &&
  (match req.percentageComplete with
    | some p => decide (0 ≤ p) && decide (p ≤ 100)
    | none => true) &&
  (match req.blockerDescription with
    | some b => decide (b.length ≤ 1000)
    | none => true) &&
  (match req.nextTask with
    | some n => decide (n.length ≤ 500)
    | none => true)

/-- `StandupsController.Create`: model validation, then `CreateAsync`,
mapping conflict to 409 and validation to 400; success is 201. -/
def controllerCreate (db : Db) (today now uid : Nat) (req : CreateStandupRequest) :
    HttpResult StandupDto × Db :=
  if !validCreateRequest req then (.failure 400, db)
  else
    match createAsync db today now uid req with
    | .ok (dto, db') => (.success 201 dto, db')
    | .error (.conflict _) => (.failure 409, db)
    | .error (.validation _) => (.failure 400, db)

/-- `StandupsController.Update`: model validation, then `UpdateAsync`;
`null` maps to 404, `ArgumentException` to 400, success to 200. -/
def controllerUpdate (db : Db) (today now uid : Nat) (req : UpdateStandupRequest) :
    HttpResult StandupDto × Db :=
  if !validUpdateRequest req then (.failure 400, db)
  else
    match updateAsync db today now uid req with
    | .ok (none, db') => (.failure 404, db')
    | .ok (some dto, db') => (.success 200 dto, db')
    | .error (.conflict _) => (.failure 409, db)
    | .error (.validation _) => (.failure 400, db)

/-- `StandupsController.UpdateBlockerStatus`: `null` maps to 404,
success to 200. -/
def controllerUpdateBlockerStatus (db : Db) (now sid : Nat) (status : BlockerState) :
    HttpResult StandupDto × Db :=
  match updateBlockerStatusAsync db now sid status with
  | (none, db') => (.failure 404, db')
  | (some dto, db') => (.success 200 dto, db')

/-- `StandupsController.GetUserHistory`: `[FromQuery] int count = 10`,
i.e. an absent query parameter defaults to 10. -/
def controllerGetUserHistory (db : Db) (uid : Nat) (count : Option Nat) :
    HttpResult (List StandupSummaryDto) :=
  .success 200 (getUserHistoryAsync db uid (count.getD 10))

/-! ### Invariants -/

/-- The spec's blocker-field invariant, exactly as stated:
`hasBlocker == true` implies `blockerDescription` is non-empty and
`blockerStatus` is non-null; `hasBlocker == false` implies both are null. -/
def blockerClaimOk (s : Standup) : Bool :=
  if s.hasBlocker then
    (match s.blockerDescription with
      | some d => !d.isEmpty
      | none => false) && s.blockerStatus.isSome
  else s.blockerDescription == none && s.blockerStatus == none

/-- The blocker-field invariant the code actually maintains:
`hasBlocker == true` implies `blockerDescription` is present and not
whitespace-only; `hasBlocker == false` implies `blockerDescription` and
`blockerStatus` are both null.  (Nothing is guaranteed about
`blockerStatus` being non-null when `hasBlocker` is true.) -/
def blockerInv (s : Standup) : Bool :=
  if s.hasBlocker then !isNullOrWhiteSpace s.blockerDescription
  else s.blockerDescription == none && s.blockerStatus == none

/-! ### Helper lemmas -/

theorem setFirst_all {q p : Standup → Bool} {x : Standup} :
    ∀ {l : List Standup}, l.all q = true → q x = true → (setFirst p x l).all q = true := by
  intro l
  induction l with
  | nil => intro _ _; rfl
  | cons a rest ih =>
    intro hall hx
    rw [List.all_cons, Bool.and_eq_true] at hall
    by_cases hp : p a = true
    · simp [setFirst, hp, List.all_cons, hx, hall.2]
    · simp only [setFirst, if_neg hp, List.all_cons, Bool.and_eq_true]
      exact ⟨hall.1, ih hall.2 hx⟩

theorem setFirst_find? {p : Standup → Bool} {x s : Standup} :
    ∀ {l : List Standup}, l.find? p = some s → p x = true →
      (setFirst p x l).find? p = some x := by
  intro l
  induction l with
  | nil => intro h _; simp [List.find?] at h
  | cons a rest ih =>
    intro hfind hx
    by_cases hp : p a = true
    · simp [setFirst, hp, List.find?, hx]
    · rw [List.find?_cons_of_neg _ (by simpa using hp)] at hfind
      simp only [setFirst, if_neg hp]
      rw [List.find?_cons_of_neg _ (by simpa using hp)]
      exact ih hfind hx

/-- Full characterization of the update patch, field by field. -/
theorem applyPatch_eq (req : UpdateStandupRequest) (s : Standup) :
    applyPatch req s =
      { id := s.id
        userId := s.userId
        date := s.date
        jiraId := req.jiraId.getD s.jiraId
        taskDescription := req.taskDescription.getD s.taskDescription
        percentageComplete := req.percentageComplete.getD s.percentageComplete
        hasBlocker := req.hasBlocker.getD s.hasBlocker
        blockerDescription :=
          if req.hasBlocker = some false then none
          else
            match req.blockerDescription with
            | some bd =>
              if req.hasBlocker.getD s.hasBlocker = true then some bd else s.blockerDescription
            | none => s.blockerDescription
        blockerStatus := if req.hasBlocker = some false then none else s.blockerStatus
        nextTask := req.nextTask.getD s.nextTask
        createdAt := s.createdAt
        updatedAt := s.updatedAt } := by
  obtain ⟨j, t, pc, hb, bd, nt⟩ := req
  obtain ⟨i, u, d, sj, st, sp, shb, sbd, sbs, snt, sc, su⟩ := s
  cases j <;> cases t <;> cases pc <;> cases bd <;> cases nt <;>
    rcases hb with _ | _ | _ <;> cases shb <;> simp [applyPatch, Option.getD]

/-! ### Concrete data used by counterexamples and witnesses -/

/-- Seed user 1 (team lead). -/
def aliceUser : User :=
  { id := 1, name := "Alice Johnson", email := "alice.johnson@company.com",
    role := .Lead, teamId := 1 }

/-- Seed user 2. -/
def bobUser : User :=
  { id := 2, name := "Bob Smith", email := "bob.smith@company.com",
    role := .Member, teamId := 1 }

/-- A standup row without a blocker, submitted by user 1 on day 100. -/
def plainRow : Standup :=
  { id := 1, userId := 1, date := 100, jiraId := "JIRA-1",
    taskDescription := "Build API", percentageComplete := 40,
    hasBlocker := false, blockerDescription := none, blockerStatus := none,
    nextTask := "Write tests", createdAt := 500, updatedAt := none }

/-- A store holding only `plainRow`. -/
def plainDb : Db := { users := [aliceUser, bobUser], standups := [plainRow], nextStandupId := 2 }

/-- An update request that switches the blocker on and supplies a
description, leaving every other field absent. -/
def enableBlockerReq : UpdateStandupRequest :=
  { jiraId := none, taskDescription := none, percentageComplete := none,
    hasBlocker := some true, blockerDescription := some "stuck on env", nextTask := none }

/-- The row `plainRow` becomes when `enableBlockerReq` is applied at time 600. -/
def enabledRow : Standup :=
  { plainRow with
    hasBlocker := true
    blockerDescription := some "stuck on env"
    updatedAt := some 600 }

/-- The store after that update. -/
def enabledDb : Db := { plainDb with standups := [enabledRow] }

/-- C1, counterexample: enabling a blocker through `update` on a
previously blocker-free row succeeds but leaves `blockerStatus` null, so
the stored row violates the claimed invariant (`hasBlocker == true`
implies `blockerStatus` non-null). -/
theorem c1_counterexample :
    updateAsync plainDb 100 600 1 enableBlockerReq =
      .ok (some (mapToDto enabledDb enabledRow), enabledDb) ∧
    enabledRow.hasBlocker = true ∧ enabledRow.blockerStatus = none ∧
    blockerClaimOk enabledRow = false := by
  refine ⟨rfl, rfl, rfl, by decide⟩

/-- C1 (amended): after every successful service operation (create,
update, updateBlockerStatus) on a store whose rows satisfy the invariant,
every stored row still satisfies: `hasBlocker == true` implies
`blockerDescription` is present and not whitespace-only, and
`hasBlocker == false` implies `blockerDescription` and `blockerStatus`
are both null.  (`blockerStatus` non-null is not guaranteed when the
blocker was enabled via update.) -/
theorem c1_blocker_invariant_amended (db : Db) (today now cuid uuid sid : Nat)
    (creq : CreateStandupRequest) (ureq : UpdateStandupRequest) (bst : BlockerState)
    (cdto udto bdto : StandupDto) (db₁ db₂ db₃ : Db)
    (hinv : db.standups.all blockerInv = true) :
    (createAsync db today now cuid creq = .ok (cdto, db₁) →
      db₁.standups.all blockerInv = true) ∧
    (updateAsync db today now uuid ureq = .ok (some udto, db₂) →
      db₂.standups.all blockerInv = true) ∧
    (updateBlockerStatusAsync db now sid bst = (some bdto, db₃) →
      db₃.standups.all blockerInv = true) := by
  refine ⟨?_, ?_, ?_⟩
  · intro h
    unfold createAsync at h
    cases hfind : db.standups.find? (fun s => s.userId == cuid && s.date == today) with
    | some s => rw [hfind] at h; cases h
    | none =>
      rw [hfind] at h
      by_cases hv : (creq.hasBlocker && isNullOrWhiteSpace creq.blockerDescription) = true
      · rw [if_pos hv] at h; cases h
      · rw [if_neg hv] at h
        injection h with h'
        injection h' with hdto hdb
        subst hdb
        simp only [List.all_append, List.all_cons, List.all_nil, Bool.and_eq_true]
        refine ⟨hinv, ?_, trivial⟩
        by_cases hb : creq.hasBlocker = true
        · rw [Bool.and_eq_true, not_and] at hv
          have hws := hv hb
          simp [blockerInv, hb, Bool.not_eq_true _ ▸ eq_false_of_ne_true hws]
        · replace hb := Bool.not_eq_true _ ▸ hb
          simp [blockerInv, hb]
  · intro h
    cases hfind : db.standups.find? (fun s => s.userId == uuid && s.date == today) with
    | none => simp only [updateAsync, hfind] at h; simp at h
    | some s0 =>
      simp only [updateAsync, hfind] at h
      by_cases hv : ((applyPatch ureq s0).hasBlocker &&
          isNullOrWhiteSpace (applyPatch ureq s0).blockerDescription) = true
      · rw [if_pos hv] at h; cases h
      · rw [if_neg hv] at h
        injection h with h'
        injection h' with hdto hdb
        subst hdb
        apply setFirst_all hinv
        have hs0 : blockerInv s0 = true :=
          List.all_eq_true.mp hinv s0 (List.mem_of_find?_eq_some hfind)
        by_cases hb : (applyPatch ureq s0).hasBlocker = true
        · rw [Bool.and_eq_true, not_and] at hv
          have hws := hv hb
          simp [blockerInv, hb, Bool.not_eq_true _ ▸ eq_false_of_ne_true hws]
        · replace hb := Bool.not_eq_true _ ▸ hb
          rw [applyPatch_eq] at hb ⊢
          simp only [Option.getD] at hb
          simp only [blockerInv]
          rcases hhb : ureq.hasBlocker with _ | b
          · rw [hhb] at hb
            simp only at hb
            rw [blockerInv, if_neg (by simp [hb])] at hs0
            rw [Bool.and_eq_true, beq_iff_eq, beq_iff_eq] at hs0
            simp [hhb, hb, hs0.1, hs0.2]
            cases ureq.blockerDescription <;> rfl
          · cases b
            · simp [hhb]
            · rw [hhb] at hb; simp at hb
  · intro h
    cases hfind : db.standups.find? (fun s => s.id == sid) with
    | none => simp only [updateBlockerStatusAsync, hfind] at h; simp at h
    | some s0 =>
      simp only [updateBlockerStatusAsync, hfind] at h
      by_cases hb : s0.hasBlocker = true
      · rw [if_neg (by simp [hb])] at h
        injection h with hdto hdb
        subst hdb
        apply setFirst_all hinv
        have hs0 : blockerInv s0 = true :=
          List.all_eq_true.mp hinv s0 (List.mem_of_find?_eq_some hfind)
        rw [blockerInv, if_pos hb] at hs0
        simp [blockerInv, hb, hs0]
      · replace hb := Bool.not_eq_true _ ▸ hb
        rw [if_pos (by simp [hb])] at h
        simp at h

/-- A standup row with an open blocker, submitted by user 1 on day 100. -/
def blockedRow : Standup :=
  { id := 1, userId := 1, date := 100, jiraId := "JIRA-1",
    taskDescription := "Build API", percentageComplete := 40,
    hasBlocker := true, blockerDescription := some "stuck on env",
    blockerStatus := some .New, nextTask := "Write tests",
    createdAt := 500, updatedAt := none }

/-- A store holding only `blockedRow`. -/
def blockedDb : Db :=
  { users := [aliceUser, bobUser], standups := [blockedRow], nextStandupId := 2 }

/-- A valid blocker-free create request for user 2. -/
def freshCreateReq : CreateStandupRequest :=
  { jiraId := "JIRA-2", taskDescription := "Ship UI", percentageComplete := 20,
    hasBlocker := false, blockerDescription := none, nextTask := "Review" }

/-- The row `freshCreateReq` inserts for user 2 at time 600 on day 100. -/
def freshRow : Standup :=
  { id := 2, userId := 2, date := 100, jiraId := "JIRA-2",
    taskDescription := "Ship UI", percentageComplete := 20,
    hasBlocker := false, blockerDescription := none, blockerStatus := none,
    nextTask := "Review", createdAt := 600, updatedAt := none }

/-- `blockedDb` after that insert. -/
def freshDb : Db :=
  { users := [aliceUser, bobUser], standups := [blockedRow, freshRow], nextStandupId := 3 }

/-- An update request touching only the completion percentage. -/
def pctOnlyReq : UpdateStandupRequest :=
  { jiraId := none, taskDescription := none, percentageComplete := some 60,
    hasBlocker := none, blockerDescription := none, nextTask := none }

/-- `blockedRow` after `pctOnlyReq` at time 600. -/
def pctRow : Standup := { blockedRow with percentageComplete := 60, updatedAt := some 600 }

/-- `blockedDb` after that update. -/
def pctDb : Db := { blockedDb with standups := [pctRow] }

/-- `blockedRow` after its blocker is marked Critical at time 600. -/
def critRow : Standup :=
  { blockedRow with blockerStatus := some .Critical, updatedAt := some 600 }

/-- `blockedDb` after that status change. -/
def critDb : Db := { blockedDb with standups := [critRow] }

/-- C1 witness: the amended invariant theorem applied to a concrete
store, once for each of the three operations. -/
theorem c1_blocker_invariant_amended_witness :
    freshDb.standups.all blockerInv = true ∧
    pctDb.standups.all blockerInv = true ∧
    critDb.standups.all blockerInv = true :=
  ⟨(c1_blocker_invariant_amended blockedDb 100 600 2 1 1 freshCreateReq pctOnlyReq
      .Critical (mapToDto freshDb freshRow) (mapToDto pctDb pctRow) (mapToDto critDb critRow)
      freshDb pctDb critDb (by decide)).1 rfl,
   (c1_blocker_invariant_amended blockedDb 100 600 2 1 1 freshCreateReq pctOnlyReq
      .Critical (mapToDto freshDb freshRow) (mapToDto pctDb pctRow) (mapToDto critDb critRow)
      freshDb pctDb critDb (by decide)).2.1 rfl,
   (c1_blocker_invariant_amended blockedDb 100 600 2 1 1 freshCreateReq pctOnlyReq
      .Critical (mapToDto freshDb freshRow) (mapToDto pctDb pctRow) (mapToDto critDb critRow)
      freshDb pctDb critDb (by decide)).2.2 rfl⟩

/-- C2: when a row already exists for (userId, today), `create` throws
the duplicate-submission conflict whatever the request contains, and the
controller answers 409 with the store untouched (the original `db` is
returned: no field of the existing row changes and nothing is inserted). -/
theorem c2_create_conflict (db : Db) (today now uid : Nat) (req : CreateStandupRequest)
    (s : Standup) (hmem : s ∈ db.standups) (huid : s.userId = uid) (hdate : s.date = today) :
    createAsync db today now uid req =
      .error (.conflict "Standup already submitted for today. Use update instead.") ∧
    (validCreateRequest req = true →
      controllerCreate db today now uid req = (.failure 409, db)) := by
  have hsome : (db.standups.find? (fun t => t.userId == uid && t.date == today)).isSome = true :=
    List.find?_isSome.mpr ⟨s, hmem, by simp [huid, hdate]⟩
  cases hfind : db.standups.find? (fun t => t.userId == uid && t.date == today) with
  | none => rw [hfind] at hsome; cases hsome
  | some t =>
    have hcreate : createAsync db today now uid req =
        .error (.conflict "Standup already submitted for today. Use update instead.") := by
      simp only [createAsync, hfind]
    refine ⟨hcreate, fun hvalid => ?_⟩
    simp only [controllerCreate, hvalid, Bool.not_true, Bool.false_eq_true, if_false, hcreate]

/-- C2 witness: creating again for user 1 on day 100 in `blockedDb`. -/
theorem c2_create_conflict_witness :
    createAsync blockedDb 100 600 1 freshCreateReq =
      .error (.conflict "Standup already submitted for today. Use update instead.") ∧
    (validCreateRequest freshCreateReq = true →
      controllerCreate blockedDb 100 600 1 freshCreateReq = (.failure 409, blockedDb)) :=
  c2_create_conflict blockedDb 100 600 1 freshCreateReq blockedRow
    (by decide) (by decide) (by decide)

/-- A create request with a blocker flagged but no description. -/
def emptyBlockerCreateReq : CreateStandupRequest :=
  { jiraId := "JIRA-3", taskDescription := "Fix bug", percentageComplete := 10,
    hasBlocker := true, blockerDescription := none, nextTask := "Test" }

/-- C3, counterexample: a create request with `hasBlocker = true` and an
absent `blockerDescription`, issued for a user who already has a row
today, fails with Conflict (409), not Validation (400): the
duplicate-submission check runs before blocker validation. -/
theorem c3_counterexample :
    emptyBlockerCreateReq.hasBlocker = true ∧
    isNullOrWhiteSpace emptyBlockerCreateReq.blockerDescription = true ∧
    createAsync blockedDb 100 600 1 emptyBlockerCreateReq =
      .error (.conflict "Standup already submitted for today. Use update instead.") ∧
    controllerCreate blockedDb 100 600 1 emptyBlockerCreateReq = (.failure 409, blockedDb) :=
  ⟨rfl, rfl, rfl, rfl⟩

/-- C3 (amended): a create request with `hasBlocker = true` and an
empty, whitespace-only or absent `blockerDescription` fails with
Validation (400) provided no row exists yet for (userId, today), and an
update whose application would leave the row with `hasBlocker = true`
and an empty description fails with Validation (400); in both cases the
store is returned unchanged. -/
theorem c3_validation_failure (dbC dbU : Db) (today now cuid uuid : Nat)
    (creq : CreateStandupRequest) (ureq : UpdateStandupRequest) (s0 : Standup)
    (hnone : dbC.standups.find? (fun s => s.userId == cuid && s.date == today) = none)
    (hcb : creq.hasBlocker = true)
    (hcd : isNullOrWhiteSpace creq.blockerDescription = true)
    (hfind : dbU.standups.find? (fun s => s.userId == uuid && s.date == today) = some s0)
    (hub : (applyPatch ureq s0).hasBlocker = true)
    (hud : isNullOrWhiteSpace (applyPatch ureq s0).blockerDescription = true) :
    createAsync dbC today now cuid creq =
      .error (.validation "Blocker description is required when Has Blocker is checked.") ∧
    controllerCreate dbC today now cuid creq = (.failure 400, dbC) ∧
    updateAsync dbU today now uuid ureq =
      .error (.validation "Blocker description is required when Has Blocker is checked.") ∧
    controllerUpdate dbU today now uuid ureq = (.failure 400, dbU) := by
  have hc : createAsync dbC today now cuid creq =
      .error (.validation "Blocker description is required when Has Blocker is checked.") := by
    simp only [createAsync, hnone, hcb, hcd, Bool.and_self, if_pos]
  have hu : updateAsync dbU today now uuid ureq =
      .error (.validation "Blocker description is required when Has Blocker is checked.") := by
    simp only [updateAsync, hfind, hub, hud, Bool.and_self, if_pos]
  refine ⟨hc, ?_, hu, ?_⟩
  · cases hvalid : validCreateRequest creq with
    | false => simp only [controllerCreate, hvalid, Bool.not_false, if_pos]
    | true => simp only [controllerCreate, hvalid, Bool.not_true, Bool.false_eq_true,
        if_false, hc]
  · cases hvalid : validUpdateRequest ureq with
    | false => simp only [controllerUpdate, hvalid, Bool.not_false, if_pos]
    | true => simp only [controllerUpdate, hvalid, Bool.not_true, Bool.false_eq_true,
        if_false, hu]

/-- An update request supplying a whitespace-only blocker description. -/
def wsDescReq : UpdateStandupRequest :=
  { jiraId := none, taskDescription := none, percentageComplete := none,
    hasBlocker := none, blockerDescription := some "   ", nextTask := none }

/-- C3 witness: the amended statement at a concrete store (create for
user 2 who has no row; update for user 1 whose blocker row receives a
whitespace-only description). -/
theorem c3_validation_failure_witness :
    createAsync blockedDb 100 600 2 emptyBlockerCreateReq =
      .error (.validation "Blocker description is required when Has Blocker is checked.") ∧
    controllerCreate blockedDb 100 600 2 emptyBlockerCreateReq = (.failure 400, blockedDb) ∧
    updateAsync blockedDb 100 600 1 wsDescReq =
      .error (.validation "Blocker description is required when Has Blocker is checked.") ∧
    controllerUpdate blockedDb 100 600 1 wsDescReq = (.failure 400, blockedDb) :=
  c3_validation_failure blockedDb blockedDb 100 600 2 1 emptyBlockerCreateReq wsDescReq
    blockedRow (by decide) (by decide) (by decide) (by decide) (by decide) (by decide)

/-- The row `CreateAsync` builds from a request (the `new Standup {...}`
object initializer). -/
def createdRow (db : Db) (today now uid : Nat) (req : CreateStandupRequest) : Standup :=
  { id := db.nextStandupId
    userId := uid
    date := today
    jiraId := req.jiraId
    taskDescription := req.taskDescription
    percentageComplete := req.percentageComplete
    hasBlocker := req.hasBlocker
    blockerDescription := if req.hasBlocker then req.blockerDescription else none
    blockerStatus := if req.hasBlocker then some .New else none
    nextTask := req.nextTask
    createdAt := now
    updatedAt := none }

/-- The store after a successful insert. -/
def createDbAfter (db : Db) (today now uid : Nat) (req : CreateStandupRequest) : Db :=
  { db with
    standups := db.standups ++ [createdRow db today now uid req]
    nextStandupId := db.nextStandupId + 1 }

theorem createAsync_success (db : Db) (today now uid : Nat) (req : CreateStandupRequest)
    (hnone : db.standups.find? (fun s => s.userId == uid && s.date == today) = none)
    (hval : (req.hasBlocker && isNullOrWhiteSpace req.blockerDescription) = false) :
    createAsync db today now uid req =
      .ok (mapToDto (createDbAfter db today now uid req) (createdRow db today now uid req),
        createDbAfter db today now uid req) := by
  simp only [createAsync, hnone, hval, Bool.false_eq_true, if_false, createdRow, createDbAfter]

/-- C4: a valid create (no row yet for (userId, today), blocker
description present when `hasBlocker`) succeeds; the returned record has
`blockerStatus = New` exactly when `hasBlocker` and null otherwise,
`createdAt = now` and `updatedAt = null`; and `getTodayStandup` read
from the resulting store with no intervening writes returns an equal
record. -/
theorem c4_create_roundtrip (db : Db) (today now uid : Nat) (req : CreateStandupRequest)
    (hnone : db.standups.find? (fun s => s.userId == uid && s.date == today) = none)
    (hval : (req.hasBlocker && isNullOrWhiteSpace req.blockerDescription) = false) :
    ∃ dto db', createAsync db today now uid req = .ok (dto, db') ∧
      dto.blockerStatus = (if req.hasBlocker = true then some BlockerState.New else none) ∧
      dto.createdAt = now ∧ dto.updatedAt = none ∧
      getTodayStandupAsync db' today uid = some dto := by
  refine ⟨_, _, createAsync_success db today now uid req hnone hval, ?_, rfl, rfl, ?_⟩
  · cases hb : req.hasBlocker <;> simp [mapToDto, createdRow, hb]
  · unfold getTodayStandupAsync
    simp only [createDbAfter, List.find?_append, hnone, Option.none_or]
    have hp : (fun s => s.userId == uid && s.date == today) (createdRow db today now uid req)
        = true := by simp [createdRow]
    simp [List.find?, hp]

/-- C4 witness: user 2 creates in `blockedDb` on day 100 at time 600. -/
theorem c4_create_roundtrip_witness :
    ∃ dto db', createAsync blockedDb 100 600 2 freshCreateReq = .ok (dto, db') ∧
      dto.blockerStatus =
        (if freshCreateReq.hasBlocker = true then some BlockerState.New else none) ∧
      dto.createdAt = 600 ∧ dto.updatedAt = none ∧
      getTodayStandupAsync db' 100 2 = some dto :=
  c4_create_roundtrip blockedDb 100 600 2 freshCreateReq (by decide) (by decide)

/-- The row a successful update stores: the patched row with
`updatedAt` stamped. -/
def updatedRow (req : UpdateStandupRequest) (s0 : Standup) (now : Nat) : Standup :=
  { applyPatch req s0 with updatedAt := some now }

/-- The store after a successful update of the (userId, today) row. -/
def updateDbAfter (db : Db) (today uid : Nat) (final : Standup) : Db :=
  { db with
    standups := setFirst (fun s => s.userId == uid && s.date == today) final db.standups }

theorem updateAsync_success (db : Db) (today now uid : Nat) (req : UpdateStandupRequest)
    (s0 : Standup)
    (hfind : db.standups.find? (fun s => s.userId == uid && s.date == today) = some s0)
    (hval : ((applyPatch req s0).hasBlocker &&
      isNullOrWhiteSpace (applyPatch req s0).blockerDescription) = false) :
    updateAsync db today now uid req =
      .ok (some (mapToDto (updateDbAfter db today uid (updatedRow req s0 now))
          (updatedRow req s0 now)),
        updateDbAfter db today uid (updatedRow req s0 now)) := by
  simp only [updateAsync, hfind, hval, Bool.false_eq_true, if_false, updatedRow, updateDbAfter]

theorem updatedRow_key (today uid now : Nat) (req : UpdateStandupRequest) (s0 : Standup)
    (h : (s0.userId == uid && s0.date == today) = true) :
    ((updatedRow req s0 now).userId == uid && (updatedRow req s0 now).date == today) = true := by
  simp only [updatedRow, applyPatch_eq]
  simpa using h

/-- C5: partial-patch semantics of update.  On success, every field
absent from the request keeps its prior value in the stored row; setting
`hasBlocker` to false clears `blockerDescription` and `blockerStatus`
to null regardless of the other fields supplied (in particular even when
the same request carries a `blockerDescription`); and `updatedAt` is
stamped. -/
theorem c5_partial_patch (db : Db) (today now uid : Nat) (req : UpdateStandupRequest)
    (s0 : Standup)
    (hfind : db.standups.find? (fun s => s.userId == uid && s.date == today) = some s0)
    (hval : ((applyPatch req s0).hasBlocker &&
      isNullOrWhiteSpace (applyPatch req s0).blockerDescription) = false) :
    ∃ dto db', updateAsync db today now uid req = .ok (some dto, db') ∧
      ∃ s', db'.standups.find? (fun s => s.userId == uid && s.date == today) = some s' ∧
        (req.jiraId = none → s'.jiraId = s0.jiraId) ∧
        (req.taskDescription = none → s'.taskDescription = s0.taskDescription) ∧
        (req.percentageComplete = none → s'.percentageComplete = s0.percentageComplete) ∧
        (req.nextTask = none → s'.nextTask = s0.nextTask) ∧
        (req.hasBlocker = none → s'.hasBlocker = s0.hasBlocker) ∧
        (req.blockerDescription = none → req.hasBlocker ≠ some false →
          s'.blockerDescription = s0.blockerDescription) ∧
        (req.hasBlocker = some false →
          s'.blockerDescription = none ∧ s'.blockerStatus = none) ∧
        s'.updatedAt = some now := by
  refine ⟨_, _, updateAsync_success db today now uid req s0 hfind hval,
    updatedRow req s0 now, ?_, ?_, ?_, ?_, ?_, ?_, ?_, ?_, rfl⟩
  · exact setFirst_find? hfind
      (updatedRow_key today uid now req s0 (by simpa using List.find?_some hfind))
  · intro h; simp [updatedRow, applyPatch_eq, h]
  · intro h; simp [updatedRow, applyPatch_eq, h]
  · intro h; simp [updatedRow, applyPatch_eq, h]
  · intro h; simp [updatedRow, applyPatch_eq, h]
  · intro h; simp [updatedRow, applyPatch_eq, h]
  · intro h hhb
    rcases hr : req.hasBlocker with _ | b
    · simp [updatedRow, applyPatch_eq, h, hr]
    · cases b
      · exact absurd hr hhb
      · simp [updatedRow, applyPatch_eq, h, hr]
  · intro h; simp [updatedRow, applyPatch_eq, h]

/-- An update that turns the blocker off while also supplying a
description and a percentage. -/
def clearBlockerReq : UpdateStandupRequest :=
  { jiraId := none, taskDescription := none, percentageComplete := some 60,
    hasBlocker := some false, blockerDescription := some "ignored", nextTask := none }

/-- C5 witness: user 1's blocker row updated with `clearBlockerReq`
(blocker switched off, description supplied and discarded) and with
`pctOnlyReq` (description absent and preserved). -/
theorem c5_partial_patch_witness :
    (∃ dto db', updateAsync blockedDb 100 600 1 pctOnlyReq = .ok (some dto, db') ∧
      ∃ s', db'.standups.find? (fun s => s.userId == 1 && s.date == 100) = some s' ∧
        (pctOnlyReq.jiraId = none → s'.jiraId = blockedRow.jiraId) ∧
        (pctOnlyReq.taskDescription = none →
          s'.taskDescription = blockedRow.taskDescription) ∧
        (pctOnlyReq.percentageComplete = none →
          s'.percentageComplete = blockedRow.percentageComplete) ∧
        (pctOnlyReq.nextTask = none → s'.nextTask = blockedRow.nextTask) ∧
        (pctOnlyReq.hasBlocker = none → s'.hasBlocker = blockedRow.hasBlocker) ∧
        (pctOnlyReq.blockerDescription = none → pctOnlyReq.hasBlocker ≠ some false →
          s'.blockerDescription = blockedRow.blockerDescription) ∧
        (pctOnlyReq.hasBlocker = some false →
          s'.blockerDescription = none ∧ s'.blockerStatus = none) ∧
        s'.updatedAt = some 600) ∧
    ∃ dto db', updateAsync blockedDb 100 600 1 clearBlockerReq = .ok (some dto, db') ∧
      ∃ s', db'.standups.find? (fun s => s.userId == 1 && s.date == 100) = some s' ∧
        (clearBlockerReq.jiraId = none → s'.jiraId = blockedRow.jiraId) ∧
        (clearBlockerReq.taskDescription = none →
          s'.taskDescription = blockedRow.taskDescription) ∧
        (clearBlockerReq.percentageComplete = none →
          s'.percentageComplete = blockedRow.percentageComplete) ∧
        (clearBlockerReq.nextTask = none → s'.nextTask = blockedRow.nextTask) ∧
        (clearBlockerReq.hasBlocker = none → s'.hasBlocker = blockedRow.hasBlocker) ∧
        (clearBlockerReq.blockerDescription = none → clearBlockerReq.hasBlocker ≠ some false →
          s'.blockerDescription = blockedRow.blockerDescription) ∧
        (clearBlockerReq.hasBlocker = some false →
          s'.blockerDescription = none ∧ s'.blockerStatus = none) ∧
        s'.updatedAt = some 600 :=
  ⟨c5_partial_patch blockedDb 100 600 1 pctOnlyReq blockedRow (by decide) (by decide),
   c5_partial_patch blockedDb 100 600 1 clearBlockerReq blockedRow (by decide) (by decide)⟩

/-- C10 (implicit behaviour): an update on a blocker-free row that does
not set `hasBlocker` to true silently ignores any supplied
`blockerDescription`: the operation succeeds and the stored row keeps
`hasBlocker = false` with null description and status. -/
theorem c10_stray_description_ignored (db : Db) (today now uid : Nat)
    (req : UpdateStandupRequest) (s0 : Standup)
    (hfind : db.standups.find? (fun s => s.userId == uid && s.date == today) = some s0)
    (hhb : s0.hasBlocker = false) (hdesc : s0.blockerDescription = none)
    (hstat : s0.blockerStatus = none) (hreq : req.hasBlocker ≠ some true)
    (hbd : req.blockerDescription.isSome = true) :
    ∃ dto db', updateAsync db today now uid req = .ok (some dto, db') ∧
      ∃ s', db'.standups.find? (fun s => s.userId == uid && s.date == today) = some s' ∧
        s'.hasBlocker = false ∧ s'.blockerDescription = none ∧ s'.blockerStatus = none := by
  have hb' : (applyPatch req s0).hasBlocker = false := by
    rw [applyPatch_eq]
    rcases hr : req.hasBlocker with _ | b
    · simpa using hhb
    · cases b
      · rfl
      · exact absurd hr hreq
  have hval : ((applyPatch req s0).hasBlocker &&
      isNullOrWhiteSpace (applyPatch req s0).blockerDescription) = false := by
    rw [hb', Bool.false_and]
  refine ⟨_, _, updateAsync_success db today now uid req s0 hfind hval,
    updatedRow req s0 now,
    setFirst_find? hfind
      (updatedRow_key today uid now req s0 (by simpa using List.find?_some hfind)),
    ?_, ?_, ?_⟩
  · simpa [updatedRow] using hb'
  · rcases hr : req.hasBlocker with _ | b
    · simp [updatedRow, applyPatch_eq, hr, hhb, hdesc]
      cases req.blockerDescription <;> rfl
    · cases b
      · simp [updatedRow, applyPatch_eq, hr]
      · exact absurd hr hreq
  · rcases hr : req.hasBlocker with _ | b
    · simp [updatedRow, applyPatch_eq, hr, hstat]
    · cases b
      · simp [updatedRow, applyPatch_eq, hr]
      · exact absurd hr hreq

/-- An update that only supplies a blocker description. -/
def strayDescReq : UpdateStandupRequest :=
  { jiraId := none, taskDescription := none, percentageComplete := none,
    hasBlocker := none, blockerDescription := some "note", nextTask := none }

/-- C10 witness: `strayDescReq` against user 1's blocker-free row. -/
theorem c10_stray_description_ignored_witness :
    ∃ dto db', updateAsync plainDb 100 600 1 strayDescReq = .ok (some dto, db') ∧
      ∃ s', db'.standups.find? (fun s => s.userId == 1 && s.date == 100) = some s' ∧
        s'.hasBlocker = false ∧ s'.blockerDescription = none ∧ s'.blockerStatus = none :=
  c10_stray_description_ignored plainDb 100 600 1 strayDescReq plainRow
    (by decide) (by decide) (by decide) (by decide) (by decide) (by decide)

/-- The row stored by a successful blocker-status change: only
`blockerStatus` and `updatedAt` differ from the original. -/
def blockerStatusRow (s0 : Standup) (st : BlockerState) (now : Nat) : Standup :=
  { s0 with blockerStatus := some st, updatedAt := some now }

/-- The store after a successful blocker-status change. -/
def blockerStatusDbAfter (db : Db) (sid : Nat) (final : Standup) : Db :=
  { db with standups := setFirst (fun s => s.id == sid) final db.standups }

/-- C6: `updateBlockerStatus(standupId, status)` returns the
not-found/empty result and modifies nothing when no row with that id
exists or the row has `hasBlocker = false`; otherwise it stores the row
with only `blockerStatus` set to the given status and `updatedAt`
stamped, every other field unchanged.  The controller maps the empty
result to 404 and success to 200. -/
theorem c6_update_blocker_status (db : Db) (now sid : Nat) (st : BlockerState) :
    (db.standups.find? (fun s => s.id == sid) = none →
      updateBlockerStatusAsync db now sid st = (none, db) ∧
      controllerUpdateBlockerStatus db now sid st = (.failure 404, db)) ∧
    (∀ s0, db.standups.find? (fun s => s.id == sid) = some s0 → s0.hasBlocker = false →
      updateBlockerStatusAsync db now sid st = (none, db) ∧
      controllerUpdateBlockerStatus db now sid st = (.failure 404, db)) ∧
    (∀ s0, db.standups.find? (fun s => s.id == sid) = some s0 → s0.hasBlocker = true →
      updateBlockerStatusAsync db now sid st =
        (some (mapToDto (blockerStatusDbAfter db sid (blockerStatusRow s0 st now))
            (blockerStatusRow s0 st now)),
          blockerStatusDbAfter db sid (blockerStatusRow s0 st now)) ∧
      controllerUpdateBlockerStatus db now sid st =
        (.success 200 (mapToDto (blockerStatusDbAfter db sid (blockerStatusRow s0 st now))
            (blockerStatusRow s0 st now)),
          blockerStatusDbAfter db sid (blockerStatusRow s0 st now))) := by
  refine ⟨?_, ?_, ?_⟩
  · intro h
    have hs : updateBlockerStatusAsync db now sid st = (none, db) := by
      simp only [updateBlockerStatusAsync, h]
    exact ⟨hs, by simp only [controllerUpdateBlockerStatus, hs]⟩
  · intro s0 hfind hb
    have hs : updateBlockerStatusAsync db now sid st = (none, db) := by
      simp only [updateBlockerStatusAsync, hfind, hb, Bool.not_false, if_pos]
    exact ⟨hs, by simp only [controllerUpdateBlockerStatus, hs]⟩
  · intro s0 hfind hb
    have hs : updateBlockerStatusAsync db now sid st =
        (some (mapToDto (blockerStatusDbAfter db sid (blockerStatusRow s0 st now))
            (blockerStatusRow s0 st now)),
          blockerStatusDbAfter db sid (blockerStatusRow s0 st now)) := by
      simp only [updateBlockerStatusAsync, hfind, hb, Bool.not_true, Bool.false_eq_true,
        if_false, blockerStatusDbAfter, blockerStatusRow]
    exact ⟨hs, by simp only [controllerUpdateBlockerStatus, hs]⟩

/-- A blocker-free standup row of user 2 with id 2 on day 100. -/
def plainRow2 : Standup :=
  { id := 2, userId := 2, date := 100, jiraId := "JIRA-2",
    taskDescription := "Ship UI", percentageComplete := 70,
    hasBlocker := false, blockerDescription := none, blockerStatus := none,
    nextTask := "Demo", createdAt := 510, updatedAt := none }

/-- A store holding a blocker row (id 1) and a blocker-free row (id 2). -/
def twoRowsDb : Db :=
  { users := [aliceUser, bobUser], standups := [blockedRow, plainRow2], nextStandupId := 3 }

/-- C6 witness: the theorem applied to `twoRowsDb` for a missing id, a
blocker-free id and a blocker id. -/
theorem c6_update_blocker_status_witness :
    (updateBlockerStatusAsync twoRowsDb 600 99 BlockerState.Resolved = (none, twoRowsDb) ∧
      controllerUpdateBlockerStatus twoRowsDb 600 99 BlockerState.Resolved =
        (.failure 404, twoRowsDb)) ∧
    (updateBlockerStatusAsync twoRowsDb 600 2 BlockerState.Resolved = (none, twoRowsDb) ∧
      controllerUpdateBlockerStatus twoRowsDb 600 2 BlockerState.Resolved =
        (.failure 404, twoRowsDb)) ∧
    (updateBlockerStatusAsync twoRowsDb 600 1 BlockerState.Resolved =
      (some (mapToDto (blockerStatusDbAfter twoRowsDb 1
          (blockerStatusRow blockedRow BlockerState.Resolved 600))
          (blockerStatusRow blockedRow BlockerState.Resolved 600)),
        blockerStatusDbAfter twoRowsDb 1 (blockerStatusRow blockedRow BlockerState.Resolved 600))) :=
  ⟨(c6_update_blocker_status twoRowsDb 600 99 .Resolved).1 (by decide),
   (c6_update_blocker_status twoRowsDb 600 2 .Resolved).2.1 plainRow2 (by decide) (by decide),
   ((c6_update_blocker_status twoRowsDb 600 1 .Resolved).2.2 blockedRow (by decide) (by decide)).1⟩

/-- C9: percentage boundaries.  A create or update whose
`percentageComplete` is 0 or 100 passes model validation and succeeds
(all other preconditions being met), storing that value; one with -1 or
101 fails model validation, the controller answers 400 and nothing is
written (the original store is returned). -/
theorem c9_percentage_bounds (dbC dbU : Db) (today now cuid uuid : Nat)
    (creq : CreateStandupRequest) (ureq : UpdateStandupRequest) (s0 : Standup)
    (hcp : creq.percentageComplete = 0 ∨ creq.percentageComplete = 100)
    (hcvalid : validCreateRequest creq = true)
    (hnone : dbC.standups.find? (fun s => s.userId == cuid && s.date == today) = none)
    (hcval : (creq.hasBlocker && isNullOrWhiteSpace creq.blockerDescription) = false)
    (hup : ureq.percentageComplete = some 0 ∨ ureq.percentageComplete = some 100)
    (huvalid : validUpdateRequest ureq = true)
    (hfind : dbU.standups.find? (fun s => s.userId == uuid && s.date == today) = some s0)
    (huval : ((applyPatch ureq s0).hasBlocker &&
      isNullOrWhiteSpace (applyPatch ureq s0).blockerDescription) = false) :
    (∃ dto db', controllerCreate dbC today now cuid creq = (.success 201 dto, db') ∧
      dto.percentageComplete = creq.percentageComplete ∧
      ∃ s', db'.standups.find? (fun s => s.userId == cuid && s.date == today) = some s' ∧
        s'.percentageComplete = creq.percentageComplete) ∧
    (∃ dto db', controllerUpdate dbU today now uuid ureq = (.success 200 dto, db') ∧
      ∃ s', db'.standups.find? (fun s => s.userId == uuid && s.date == today) = some s' ∧
        ureq.percentageComplete = some s'.percentageComplete) ∧
    (∀ creq2 : CreateStandupRequest,
      creq2.percentageComplete = -1 ∨ creq2.percentageComplete = 101 →
      controllerCreate dbC today now cuid creq2 = (.failure 400, dbC)) ∧
    (∀ ureq2 : UpdateStandupRequest,
      ureq2.percentageComplete = some (-1) ∨ ureq2.percentageComplete = some 101 →
      controllerUpdate dbU today now uuid ureq2 = (.failure 400, dbU)) := by
  have hc := createAsync_success dbC today now cuid creq hnone hcval
  have hu := updateAsync_success dbU today now uuid ureq s0 hfind huval
  refine ⟨⟨mapToDto (createDbAfter dbC today now cuid creq) (createdRow dbC today now cuid creq),
      createDbAfter dbC today now cuid creq, ?_, ?_,
      createdRow dbC today now cuid creq, ?_, ?_⟩,
    ⟨mapToDto (updateDbAfter dbU today uuid (updatedRow ureq s0 now)) (updatedRow ureq s0 now),
      updateDbAfter dbU today uuid (updatedRow ureq s0 now), ?_,
      updatedRow ureq s0 now, ?_, ?_⟩, ?_, ?_⟩
  · simp only [controllerCreate, hcvalid, Bool.not_true, Bool.false_eq_true, if_false, hc]
  · rfl
  · simp only [createDbAfter, List.find?_append, hnone, Option.none_or]
    have hp : (fun s => s.userId == cuid && s.date == today)
        (createdRow dbC today now cuid creq) = true := by simp [createdRow]
    simp [List.find?, hp]
  · rfl
  · simp only [controllerUpdate, huvalid, Bool.not_true, Bool.false_eq_true, if_false, hu]
  · exact setFirst_find? hfind
      (updatedRow_key today uuid now ureq s0 (by simpa using List.find?_some hfind))
  · rcases hup with h | h <;> simp [updatedRow, applyPatch_eq, h]
  · intro creq2 h2
    have hinvalid : validCreateRequest creq2 = false := by
      rcases h2 with h | h <;> simp [validCreateRequest, h]
    simp only [controllerCreate, hinvalid, Bool.not_false, if_pos]
  · intro ureq2 h2
    have hinvalid : validUpdateRequest ureq2 = false := by
      rcases h2 with h | h <;> simp [validUpdateRequest, h]
    simp only [controllerUpdate, hinvalid, Bool.not_false, if_pos]

/-- `freshCreateReq` at 0 percent. -/
def zeroPctCreateReq : CreateStandupRequest := { freshCreateReq with percentageComplete := 0 }

/-- `freshCreateReq` at -1 percent (out of range). -/
def minusOneCreateReq : CreateStandupRequest := { freshCreateReq with percentageComplete := -1 }

/-- An update setting the percentage to 100. -/
def hundredPctReq : UpdateStandupRequest := { pctOnlyReq with percentageComplete := some 100 }

/-- An update setting the percentage to 101 (out of range). -/
def oneOhOneReq : UpdateStandupRequest := { pctOnlyReq with percentageComplete := some 101 }

/-- C9 witness: boundary values against `blockedDb` (create for user 2,
update for user 1). -/
theorem c9_percentage_bounds_witness :
    controllerCreate blockedDb 100 600 2 minusOneCreateReq = (.failure 400, blockedDb) ∧
    controllerUpdate blockedDb 100 600 1 oneOhOneReq = (.failure 400, blockedDb) ∧
    (∃ dto db', controllerCreate blockedDb 100 600 2 zeroPctCreateReq =
        (.success 201 dto, db') ∧
      dto.percentageComplete = zeroPctCreateReq.percentageComplete ∧
      ∃ s', db'.standups.find? (fun s => s.userId == 2 && s.date == 100) = some s' ∧
        s'.percentageComplete = zeroPctCreateReq.percentageComplete) ∧
    (∃ dto db', controllerUpdate blockedDb 100 600 1 hundredPctReq =
        (.success 200 dto, db') ∧
      ∃ s', db'.standups.find? (fun s => s.userId == 1 && s.date == 100) = some s' ∧
        hundredPctReq.percentageComplete = some s'.percentageComplete) :=
  ⟨(c9_percentage_bounds blockedDb blockedDb 100 600 2 1 zeroPctCreateReq hundredPctReq
      blockedRow (Or.inl rfl) (by decide) (by decide) (by decide) (Or.inr rfl) (by decide)
      (by decide) (by decide)).2.2.1 minusOneCreateReq (Or.inl rfl),
   (c9_percentage_bounds blockedDb blockedDb 100 600 2 1 zeroPctCreateReq hundredPctReq
      blockedRow (Or.inl rfl) (by decide) (by decide) (by decide) (Or.inr rfl) (by decide)
      (by decide) (by decide)).2.2.2 oneOhOneReq (Or.inr rfl),
   (c9_percentage_bounds blockedDb blockedDb 100 600 2 1 zeroPctCreateReq hundredPctReq
      blockedRow (Or.inl rfl) (by decide) (by decide) (by decide) (Or.inr rfl) (by decide)
      (by decide) (by decide)).1,
   (c9_percentage_bounds blockedDb blockedDb 100 600 2 1 zeroPctCreateReq hundredPctReq
      blockedRow (Or.inl rfl) (by decide) (by decide) (by decide) (Or.inr rfl) (by decide)
      (by decide) (by decide)).2.1⟩

instance : IsTotal Standup dateDesc := ⟨fun a b => Nat.le_total b.date a.date⟩

instance : IsTrans Standup dateDesc := ⟨fun _ _ _ hab hbc => Nat.le_trans hbc hab⟩

/-- C8: `getUserHistory(userId, count)` returns exactly the `count` most
recent rows of that user (all of them when there are fewer), ordered by
date descending, in summary shape; an absent `count` query parameter
defaults to 10. -/
theorem c8_user_history (db : Db) (uid count : Nat) :
    (getUserHistoryAsync db uid count).length =
      min count (db.standups.filter (fun s => s.userId == uid)).length ∧
    List.Pairwise (fun a b => b.date ≤ a.date) (getUserHistoryAsync db uid count) ∧
    (∀ a ∈ getUserHistoryAsync db uid count,
      ∃ r ∈ db.standups, r.userId = uid ∧ mapToSummaryDto db r = a) ∧
    (∀ r ∈ db.standups, r.userId = uid →
      mapToSummaryDto db r ∈ getUserHistoryAsync db uid count ∨
      ∀ a ∈ getUserHistoryAsync db uid count, r.date ≤ a.date) ∧
    controllerGetUserHistory db uid none = .success 200 (getUserHistoryAsync db uid 10) := by
  have hperm := List.perm_insertionSort dateDesc (db.standups.filter (fun s => s.userId == uid))
  have hsplit := List.take_append_drop count
    ((db.standups.filter (fun s => s.userId == uid)).insertionSort dateDesc)
  refine ⟨?_, ?_, ?_, ?_, rfl⟩
  · simp [getUserHistoryAsync, List.length_map, List.length_take, hperm.length_eq]
  · unfold getUserHistoryAsync
    rw [List.pairwise_map]
    exact (List.sorted_insertionSort dateDesc
      (db.standups.filter (fun s => s.userId == uid))).take
  · intro a ha
    unfold getUserHistoryAsync at ha
    obtain ⟨r, hr, rfl⟩ := List.mem_map.mp ha
    obtain ⟨hmem, hp⟩ := List.mem_filter.mp (hperm.mem_iff.mp (List.mem_of_mem_take hr))
    exact ⟨r, hmem, by simpa using hp, rfl⟩
  · intro r hmem hru
    have hsorted : r ∈ (db.standups.filter (fun s => s.userId == uid)).insertionSort dateDesc :=
      hperm.mem_iff.mpr (List.mem_filter.mpr ⟨hmem, by simpa using hru⟩)
    rw [← hsplit] at hsorted
    rcases List.mem_append.mp hsorted with h | h
    · exact Or.inl (List.mem_map_of_mem _ h)
    · right
      intro a ha
      obtain ⟨x, hx, rfl⟩ := List.mem_map.mp ha
      have hpair2 : List.Pairwise dateDesc
          (List.take count ((db.standups.filter (fun s => s.userId == uid)).insertionSort
            dateDesc) ++
          List.drop count ((db.standups.filter (fun s => s.userId == uid)).insertionSort
            dateDesc)) := by
        rw [hsplit]
        exact List.sorted_insertionSort dateDesc (db.standups.filter (fun s => s.userId == uid))
      exact (List.pairwise_append.mp hpair2).2.2 x hx r h

/-- C8 witness: the length clause at a concrete store. -/
theorem c8_user_history_witness :
    (getUserHistoryAsync twoRowsDb 1 5).length =
      min 5 (twoRowsDb.standups.filter (fun s => s.userId == 1)).length ∧
    controllerGetUserHistory twoRowsDb 1 none =
      .success 200 (getUserHistoryAsync twoRowsDb 1 10) :=
  ⟨(c8_user_history twoRowsDb 1 5).1, (c8_user_history twoRowsDb 1 5).2.2.2.2⟩

/-- Today's standups of the team (the query
`Where(s => s.User!.TeamId == teamId && s.Date == today)`). -/
def todaysTeamRows (db : Db) (today teamId : Nat) : List Standup :=
  db.standups.filter (fun s => userTeamId db s.userId == some teamId && s.date == today)

/-- `submittedUserIds` in `GetTeamSubmissionStatusAsync`. -/
def submittedIds (db : Db) (today teamId : Nat) : List Nat :=
  (todaysTeamRows db today teamId).map (fun s => s.userId)

/-- `teamMembers` in `GetTeamSubmissionStatusAsync`. -/
def teamMembersOf (db : Db) (teamId : Nat) : List User :=
  db.users.filter (fun u => u.teamId == teamId)

theorem teamStatus_eq (db : Db) (today teamId : Nat) :
    getTeamSubmissionStatusAsync db today teamId =
      { totalMembers := (teamMembersOf db teamId).length
        submittedCount := (submittedIds db today teamId).length
        submitted := ((teamMembersOf db teamId).filter
          (fun u => (submittedIds db today teamId).contains u.id)).map userSummary
        pending := ((teamMembersOf db teamId).filter
          (fun u => !(submittedIds db today teamId).contains u.id)).map userSummary } := rfl

theorem mem_partition_disjoint (l : List User) (ids : List Nat) (x : UserSummaryDto)
    (h1 : x ∈ (l.filter (fun u => ids.contains u.id)).map userSummary)
    (h2 : x ∈ (l.filter (fun u => !ids.contains u.id)).map userSummary) : False := by
  obtain ⟨u₁, hu₁, he₁⟩ := List.mem_map.mp h1
  obtain ⟨u₂, hu₂, he₂⟩ := List.mem_map.mp h2
  have hid : u₁.id = u₂.id := congrArg UserSummaryDto.id (he₁.trans he₂.symm)
  have hc₁ := (List.mem_filter.mp hu₁).2
  have hc₂ := (List.mem_filter.mp hu₂).2
  rw [hid] at hc₁
  rw [hc₁] at hc₂
  simp at hc₂

theorem filter_partition_perm (l : List User) (p : User → Bool) :
    ((l.filter p).map userSummary ++ (l.filter (fun u => !p u)).map userSummary).Perm
      (l.map userSummary) := by
  rw [← List.map_append]
  exact (List.filter_append_perm p l).map userSummary

theorem submittedIds_spec (db : Db) (today teamId i : Nat)
    (h : i ∈ submittedIds db today teamId) :
    ∃ s ∈ db.standups, s.userId = i ∧ s.date = today := by
  obtain ⟨s, hs, hsi⟩ := List.mem_map.mp h
  obtain ⟨hmem, hp⟩ := List.mem_filter.mp hs
  rw [Bool.and_eq_true] at hp
  exact ⟨s, hmem, hsi, by simpa using hp.2⟩

theorem mem_submittedIds (db : Db) (today teamId : Nat) (u : User) (s : Standup)
    (hids : (db.users.map (fun v => v.id)).Nodup)
    (hu : u ∈ db.users) (ht : u.teamId = teamId)
    (hs : s ∈ db.standups) (h1 : s.userId = u.id) (h2 : s.date = today) :
    u.id ∈ submittedIds db today teamId := by
  have hsome : (db.users.find? (fun v => v.id == u.id)).isSome = true :=
    List.find?_isSome.mpr ⟨u, hu, by simp⟩
  obtain ⟨u', hu'⟩ := Option.isSome_iff_exists.mp hsome
  have humem := List.mem_of_find?_eq_some hu'
  have hid : u'.id = u.id := by simpa using List.find?_some hu'
  have hequ : u' = u := List.inj_on_of_nodup_map hids humem hu hid
  have hteam : userTeamId db s.userId = some teamId := by
    unfold userTeamId
    rw [h1, hu']
    simp [hequ, ht]
  refine List.mem_map.mpr ⟨s, List.mem_filter.mpr ⟨hs, ?_⟩, h1⟩
  rw [Bool.and_eq_true]
  exact ⟨by simp [hteam], by simp [h2]⟩

theorem submittedIds_nodup (db : Db) (today teamId : Nat)
    (huniq : db.standups.Pairwise (fun a b => ¬(a.userId = b.userId ∧ a.date = b.date))) :
    (submittedIds db today teamId).Nodup := by
  have hpf : (db.standups.filter
      (fun s => userTeamId db s.userId == some teamId && s.date == today)).Pairwise
      (fun a b => a.userId ≠ b.userId) := by
    refine List.Pairwise.imp_of_mem ?_
      (huniq.filter (fun s => userTeamId db s.userId == some teamId && s.date == today))
    intro a b ha hb hr hne
    have hda := (List.mem_filter.mp ha).2
    have hdb := (List.mem_filter.mp hb).2
    rw [Bool.and_eq_true] at hda hdb
    refine hr ⟨hne, ?_⟩
    have h2 : a.date = today := by simpa using hda.2
    have h3 : b.date = today := by simpa using hdb.2
    rw [h2, h3]
  exact List.pairwise_map.mpr hpf

theorem filteredMemberIds_nodup (db : Db) (teamId : Nat) (q : User → Bool)
    (hids : (db.users.map (fun v => v.id)).Nodup) :
    (((teamMembersOf db teamId).filter q).map (fun v => v.id)).Nodup :=
  List.Sublist.nodup
    (List.Sublist.map _ ((List.filter_sublist _).trans (List.filter_sublist _))) hids

theorem submittedIds_mem_iff (db : Db) (today teamId i : Nat)
    (hids : (db.users.map (fun v => v.id)).Nodup) :
    i ∈ submittedIds db today teamId ↔
      i ∈ ((teamMembersOf db teamId).filter
        (fun u => (submittedIds db today teamId).contains u.id)).map (fun v => v.id) := by
  constructor
  · intro h
    obtain ⟨s, hs, hsi⟩ := List.mem_map.mp h
    obtain ⟨hsmem, hp⟩ := List.mem_filter.mp hs
    rw [Bool.and_eq_true] at hp
    have hteam : userTeamId db s.userId = some teamId := by simpa using hp.1
    unfold userTeamId at hteam
    cases hfind : db.users.find? (fun v => v.id == s.userId) with
    | none => rw [hfind] at hteam; cases hteam
    | some u'' =>
      rw [hfind] at hteam
      have ht : u''.teamId = teamId := by simpa using hteam
      have humem := List.mem_of_find?_eq_some hfind
      have hid : u''.id = s.userId := by simpa using List.find?_some hfind
      refine List.mem_map.mpr ⟨u'', List.mem_filter.mpr
        ⟨List.mem_filter.mpr ⟨humem, by simp [ht]⟩, ?_⟩, by rw [hid, hsi]⟩
      rw [hid, hsi]
      simpa using h
  · intro h
    obtain ⟨u, hu, hui⟩ := List.mem_map.mp h
    have hc := (List.mem_filter.mp hu).2
    rw [hui] at hc
    simpa using hc

/-- C7: `getTeamSubmissionStatus(teamId)` partitions the team: submitted
and pending are disjoint, together they are exactly the team's members, a
member is in submitted iff a standup row for (member, today) exists,
`totalMembers` counts the team and `submittedCount` counts submitted.
(Assumes the `users` primary-key and the unique (userId, date) index of
the store.) -/
theorem c7_team_partition (db : Db) (today teamId : Nat)
    (hids : (db.users.map (fun v => v.id)).Nodup)
    (huniq : db.standups.Pairwise (fun a b => ¬(a.userId = b.userId ∧ a.date = b.date))) :
    (∀ x ∈ (getTeamSubmissionStatusAsync db today teamId).submitted,
      x ∉ (getTeamSubmissionStatusAsync db today teamId).pending) ∧
    ((getTeamSubmissionStatusAsync db today teamId).submitted ++
      (getTeamSubmissionStatusAsync db today teamId).pending).Perm
      ((db.users.filter (fun u => u.teamId == teamId)).map userSummary) ∧
    (∀ u ∈ db.users, u.teamId = teamId →
      (userSummary u ∈ (getTeamSubmissionStatusAsync db today teamId).submitted ↔
        ∃ s ∈ db.standups, s.userId = u.id ∧ s.date = today)) ∧
    (getTeamSubmissionStatusAsync db today teamId).totalMembers =
      (db.users.filter (fun u => u.teamId == teamId)).length ∧
    (getTeamSubmissionStatusAsync db today teamId).submittedCount =
      (getTeamSubmissionStatusAsync db today teamId).submitted.length := by
  rw [teamStatus_eq]
  refine ⟨?_, ?_, ?_, rfl, ?_⟩
  · intro x hx hx2
    exact mem_partition_disjoint (teamMembersOf db teamId) (submittedIds db today teamId)
      x hx hx2
  · exact filter_partition_perm (teamMembersOf db teamId) _
  · intro u hu ht
    constructor
    · intro hx
      obtain ⟨u', hu', he⟩ := List.mem_map.mp hx
      have hid : u'.id = u.id := congrArg UserSummaryDto.id he
      have hc := (List.mem_filter.mp hu').2
      rw [hid] at hc
      exact submittedIds_spec db today teamId u.id (by simpa using hc)
    · rintro ⟨s, hs, h1, h2⟩
      exact List.mem_map.mpr ⟨u, List.mem_filter.mpr
        ⟨List.mem_filter.mpr ⟨hu, by simp [ht]⟩,
          by simpa using mem_submittedIds db today teamId u s hids hu ht hs h1 h2⟩, rfl⟩
  · have hperm : (submittedIds db today teamId).Perm
        (((teamMembersOf db teamId).filter
          (fun u => (submittedIds db today teamId).contains u.id)).map (fun v => v.id)) :=
      (List.perm_ext_iff_of_nodup (submittedIds_nodup db today teamId huniq)
        (filteredMemberIds_nodup db teamId _ hids)).mpr
        (fun i => submittedIds_mem_iff db today teamId i hids)
    show (submittedIds db today teamId).length = _
    rw [hperm.length_eq, List.length_map, List.length_map]

/-- C7 witness: `blockedDb` (team 1, users 1 and 2, only user 1 has a
row today). -/
theorem c7_team_partition_witness :
    (getTeamSubmissionStatusAsync blockedDb 100 1).totalMembers =
      (blockedDb.users.filter (fun u => u.teamId == 1)).length ∧
    (getTeamSubmissionStatusAsync blockedDb 100 1).submittedCount =
      (getTeamSubmissionStatusAsync blockedDb 100 1).submitted.length :=
  ⟨(c7_team_partition blockedDb 100 1 (by decide) (by decide)).2.2.2.1,
   (c7_team_partition blockedDb 100 1 (by decide) (by decide)).2.2.2.2⟩

end StandupBot
